import Mathlib

/-! Verification development for the two orchestration scripts of the
stagehand-python-examples repository (src/example.py and
src/agent_example.py).  The scripts are sequential orchestrations of calls
to external collaborators (the Stagehand automation client, an LLM
provider, a CDP client).  We embed them shallowly: every collaborator call
is an oracle drawn from a world/environment record, and a run produces a
trace of observable events (console prints, protocol calls, element
interactions, environment-variable reads) together with an optional
uncaught Python exception.  Rich-console markup and message interpolation
are flattened to plain strings; punctuation such as quotes inside messages
is dropped.  -/

namespace StagehandDemo

/-- Python exception values that the embedded scripts can raise.
collabError stands for an arbitrary exception raised inside an external
collaborator call (navigation failure, element not found, and so on). -/
inductive PyErr where
  | nameError (name : String)
  | typeError (msg : String)
  | keyError (key : String)
  | indexError
  | validationError
  | collabError (site : String)
  deriving DecidableEq

/-- The value of result.get of the key object after the DOM.resolveNode
protocol call in example.py (line 182-183): either the response carries no
object entry (so object_info is None), or it carries an object dictionary
that may or may not contain an objectId key. -/
inductive ObjHandle where
  | noObj
  | objMissingId
  | objId (objectId : String)
  deriving DecidableEq

/-- Observable effects emitted while a script runs.  print covers both
console.print and plain print with the flattened message text. -/
inductive Event where
  | getenv (name : String)
  | print (s : String)
  | initSession
  | goto (url : String)
  | sleepSeconds (n : Nat)
  | getTree
  | actCall (instr : String)
  | observeCall (instr : String)
  | extractCall (instr : String)
  | printExtractResult
  | printCompany (idx : Nat) (name : String)
  | locatorClick (xpath : String)
  | locatorFill (xpath : String) (text : String)
  | waitForLoadState
  | newPage
  | llmCreateResponse
  | cdpSend (method : String) (backendNodeId : Int)
  | printObj (h : ObjHandle)
  | getCdpClient
  | xpathLookup (objectId : String)
  | caughtWarning
  | errorLog
  | tracebackPrint
  | closeSession
  | agentExecuteCall (maxSteps : Nat)
  | printAgentResult
  deriving DecidableEq

/-- The ElementAction pydantic model of example.py (lines 42-45). -/
structure ElementAction where
  action : String
  id : Int
  arguments : List String
  deriving DecidableEq

/-- Oracles for the two collaborator calls used by the element-resolution
code of example.py: the CDP DOM.resolveNode response for a given backend
node id, and the get_xpath_by_resolved_object_id utility. -/
structure ResolveEnv where
  resolveNode : Int → ObjHandle
  xpathOf : String → Option String

/-- Python truthiness of an optional string: None and the empty string are
falsy, any other string is truthy. -/
def optStrTruthy : Option String → Bool
  | none => false
  | some s => s != ""

/-- Printable form of an optional string, as Python would show it. -/
def reprOptStr : Option String → String
  | none => "None"
  | some s => s

/-- Lines 181-195 of example.py: send DOM.resolveNode with backendNodeId
equal to action.id, print the object handle, fetch the CDP client, look
the handle up as an XPath, and either click-and-fill the locator for that
XPath or print that no xpath was found.  A missing object entry makes the
subscript object_info of objectId raise TypeError; an object without the
objectId key raises KeyError; an empty arguments list makes
action.arguments index 0 raise IndexError after the click. -/
def elementResolutionWorkflow (env : ResolveEnv) (action : ElementAction) :
    List Event × Option PyErr :=
  let h := env.resolveNode action.id
  let pre := [Event.cdpSend "DOM.resolveNode" action.id, Event.printObj h,
              Event.getCdpClient]
  match h with
  | ObjHandle.noObj =>
      (pre, some (PyErr.typeError "NoneType object is not subscriptable"))
  | ObjHandle.objMissingId => (pre, some (PyErr.keyError "objectId"))
  | ObjHandle.objId oid =>
      let xp := env.xpathOf oid
      let pre2 := pre ++ [Event.xpathLookup oid,
                          Event.print ("Retrieved XPath: " ++ reprOptStr xp)]
      match xp with
      | none => (pre2 ++ [Event.print "No xpath found"], none)
      | some xpath =>
          if xpath != "" then
            match action.arguments with
            | [] => (pre2 ++ [Event.locatorClick xpath], some PyErr.indexError)
            | a :: _ =>
                (pre2 ++ [Event.locatorClick xpath, Event.locatorFill xpath a,
                          Event.print "Filled search bar with Hello"], none)
          else (pre2 ++ [Event.print "No xpath found"], none)

/-- Names bound at module level in example.py: the imported names
(lines 1-13) and the module-level assignments and class definitions
(console, the three pydantic models, main). -/
def exampleModuleLevelNames : List String :=
  ["asyncio", "logging", "os", "Console", "Panel", "Theme", "BaseModel",
   "Field", "HttpUrl", "load_dotenv", "time", "StagehandConfig", "Stagehand",
   "configure_logging", "ObserveOptions", "ActOptions", "ExtractOptions",
   "get_accessibility_tree", "get_xpath_by_resolved_object_id", "console",
   "Company", "Companies", "ElementAction", "main"]

/-- Names assigned somewhere in the body of main in example.py, hence local
to main for Python scoping purposes.  model_name occurs in the script only
as a keyword argument of the StagehandConfig call (line 53) and keyword
arguments do not bind names in the calling scope.  No Python builtin is
named model_name either. -/
def exampleMainAssignedNames : List String :=
  ["config", "stagehand", "tree", "extract_options", "extract_result",
   "companies_data", "id_to_url", "company", "idx", "e", "new_page",
   "response", "action", "args", "result", "object_info", "xpath",
   "observe_result", "traceback"]

/-- Whether a name is resolvable at line 173 of example.py (inside main):
local names of main, else module-level names.  Builtins are omitted; none
of the names the script uses at that point is a builtin. -/
def nameBoundInExampleMain (n : String) : Bool :=
  exampleMainAssignedNames.contains n || exampleModuleLevelNames.contains n

/-- Lines 153-195 of example.py, the branch taken when stagehand.llm is not
None: print the availability notice, then evaluate the
stagehand.llm.create_response call.  Evaluating its arguments resolves the
name model_name; if it were bound the call would be issued, the response
parsed with ElementAction.model_validate_json (parse failure raising an
uncaught validation error), and the element-resolution workflow run.
Since model_name is unbound, the lookup raises NameError before the call
is issued. -/
def directLlmBranch (parsed : Option ElementAction) (env : ResolveEnv) :
    List Event × Option PyErr :=
  let pre := [Event.print "LLM client available - using direct LLM call"]
  if nameBoundInExampleMain "model_name" then
    match parsed with
    | none => (pre ++ [Event.llmCreateResponse], some PyErr.validationError)
    | some action =>
        let r := elementResolutionWorkflow env action
        (pre ++ [Event.llmCreateResponse,
                 Event.print ("LLM identified element ID: " ++ toString action.id)]
             ++ r.1, r.2)
  else (pre, some (PyErr.nameError "model_name"))

/-- Runtime Python values, tagged with their runtime type so that
isinstance checks can be expressed.  httpUrl is a pydantic-v2 Url object
(pydantic v2 Url is not a str subclass), distinct from str. -/
inductive PyVal where
  | str (s : String)
  | int (n : Int)
  | httpUrl (s : String)
  | noneVal
  | list (xs : List PyVal)
  | dict (fields : List (String × PyVal))

/-- Python isinstance of str: true exactly for str-tagged values. -/
def pyIsInstanceStr : PyVal → Bool
  | PyVal.str _ => true
  | _ => false

/-- Lookup in a Python dictionary represented as an association list. -/
def dictGet (fields : List (String × PyVal)) (k : String) : Option PyVal :=
  (fields.find? (fun p => p.1 == k)).map (fun p => p.2)

/-- Simplified pydantic HttpUrl syntactic validity, working on the
character list of the string: the URL must carry an http or https scheme;
the function returns what follows the scheme. -/
def httpSchemeRest (cs : List Char) : Option (List Char) :=
  if List.isPrefixOf ("https://".data) cs then some (cs.drop 8)
  else if List.isPrefixOf ("http://".data) cs then some (cs.drop 7)
  else none

/-- The host component of what follows the scheme: the characters before
the first slash, question mark or hash. -/
def urlHost (rest : List Char) : List Char :=
  rest.takeWhile (fun c => c ≠ '/' && c ≠ '?' && c ≠ '#')

/-- Whether a string is a syntactically valid HTTP(S) URL in the
simplified model of pydantic Url validation: an http or https scheme
followed by a non-empty host. -/
def validHttpUrl (s : String) : Bool :=
  match httpSchemeRest s.data with
  | none => false
  | some rest => !(urlHost rest).isEmpty

/-- The Company pydantic model of example.py (lines 35-37).  The url field
holds the runtime value of the attribute; successful validation always
stores a pydantic Url object (PyVal.httpUrl), never a plain str. -/
structure Company where
  name : String
  url : PyVal

/-- The Companies pydantic model of example.py (lines 39-40).  The field
description mentions a maximum of five companies, but a Field description
is documentation only: pydantic enforces no length bound and no
non-emptiness of names. -/
structure Companies where
  companies : List Company

/-- Pydantic validation of one Company: the input must be a dictionary with
a name entry that is a str and a url entry that is either a str parsing as
an HTTP(S) URL or already a pydantic Url object; the validated url
attribute is a pydantic Url object. -/
def validateCompany (v : PyVal) : Except PyErr Company :=
  match v with
  | PyVal.dict fs =>
      match dictGet fs "name", dictGet fs "url" with
      | some (PyVal.str n), some (PyVal.str u) =>
          if validHttpUrl u then Except.ok { name := n, url := PyVal.httpUrl u }
          else Except.error PyErr.validationError
      | some (PyVal.str n), some (PyVal.httpUrl u) =>
          if validHttpUrl u then Except.ok { name := n, url := PyVal.httpUrl u }
          else Except.error PyErr.validationError
      | _, _ => Except.error PyErr.validationError
  | _ => Except.error PyErr.validationError

/-- Validate every element of the companies list, failing on the first
invalid element. -/
def validateCompanyList : List PyVal → Except PyErr (List Company)
  | [] => Except.ok []
  | v :: rest =>
      match validateCompany v, validateCompanyList rest with
      | Except.ok c, Except.ok cs => Except.ok (c :: cs)
      | Except.error e, _ => Except.error e
      | _, Except.error e => Except.error e

/-- Companies.model_validate: the raw value must be a dictionary whose
companies entry is a list of valid company dictionaries.  No constraint on
the length of the list or on the emptiness of names is checked. -/
def Companies.model_validate (v : PyVal) : Except PyErr Companies :=
  match v with
  | PyVal.dict fs =>
      match dictGet fs "companies" with
      | some (PyVal.list items) =>
          match validateCompanyList items with
          | Except.ok cs => Except.ok { companies := cs }
          | Except.error e => Except.error e
      | _ => Except.error PyErr.validationError
  | _ => Except.error PyErr.validationError

/-- What page.extract returned at line 98 of example.py: either already a
Companies pydantic model instance or some other raw value. -/
inductive ExtractResult where
  | modelInstance (c : Companies)
  | rawValue (v : PyVal)

/-- Line 110 of example.py: keep the result if it already is a Companies
instance, otherwise run Companies.model_validate on it. -/
def companiesOf (r : ExtractResult) : Except PyErr Companies :=
  match r with
  | ExtractResult.modelInstance c => Except.ok c
  | ExtractResult.rawValue v => Companies.model_validate v

/-- Python str.isdigit: non-empty and all characters are digits. -/
def pyIsDigit (s : String) : Bool :=
  !s.data.isEmpty && s.data.all Char.isDigit

/-- Lookup in the idToUrl mapping of the accessibility tree. -/
def lookupStr (m : List (String × String)) (k : String) : Option String :=
  (m.find? (fun p => p.1 == k)).map (fun p => p.2)

/-- Lines 114-121 of example.py: for each company whose url attribute is a
str consisting only of digits and present in the idToUrl mapping, replace
the url by the mapped one and print a resolution notice.  Returns the
updated companies together with the print events the loop emits. -/
def resolveUrls (idToUrl : List (String × String)) :
    List Company → List Company × List Event
  | [] => ([], [])
  | c :: rest =>
      let r := resolveUrls idToUrl rest
      match c.url with
      | PyVal.str u =>
          if pyIsDigit u then
            match lookupStr idToUrl u with
            | some newUrl =>
                ({ c with url := PyVal.str newUrl } :: r.1,
                 Event.print ("Resolved URL for " ++ c.name) :: r.2)
            | none => (c :: r.1, r.2)
          else (c :: r.1, r.2)
      | _ => (c :: r.1, r.2)

/-- Lines 106-125 of example.py: the try block normalizes the extract
result into the Companies model and runs the URL-resolution loop; any
exception raised inside it (in particular a validation failure) is caught
by the except clause, which prints the failure and the raw result.  The
block itself never lets an exception escape. -/
def parseExtractBlock (idToUrl : List (String × String)) (r : ExtractResult) :
    Option Companies × List Event :=
  match companiesOf r with
  | Except.ok c =>
      let res := resolveUrls idToUrl c.companies
      (some { companies := res.1 },
       Event.print "Successfully parsed extract result into Companies model"
         :: res.2)
  | Except.error _ =>
      (none, [Event.print "Failed to parse extract result",
              Event.printExtractResult])

/-- Lines 127-132 of example.py: print each company on its own numbered
line. -/
def companyPrintLines : Nat → List Company → List Event
  | _, [] => []
  | i, c :: rest => Event.printCompany i c.name :: companyPrintLines (i + 1) rest

/-- Lines 127-132 of example.py: a parsed Companies instance (truthy, and
always carrying a companies attribute) is printed company by company;
otherwise a no-companies notice is printed. -/
def printCompanies (cd : Option Companies) : List Event :=
  match cd with
  | some c => companyPrintLines 1 c.companies
  | none => [Event.print "No companies were found in the extraction result"]

/-- Lines 99-132 of example.py: the success prints after extract, the raw
prints of the extract result, the parse-and-normalize block and the final
company listing.  This whole chunk emits events and never raises. -/
def extractAndParse (idToUrl : List (String × String)) (r : ExtractResult) :
    List Event :=
  let parsed := parseExtractBlock idToUrl r
  [Event.print "Extracted companies data", Event.printExtractResult,
   Event.printExtractResult]
    ++ parsed.2
    ++ [Event.print "Extracted Companies:"]
    ++ printCompanies parsed.1

/-- Collaborator call sites of the two scripts: one constructor per await
of an external operation that can raise.  The agent-prefixed sites belong
to agent_example.py. -/
inductive Site where
  | init
  | gotoAigrant
  | getTree1
  | actClickGetStarted
  | observeGetStarted
  | extract
  | xpathClick
  | waitLoad
  | newPage
  | gotoGoogle
  | getTree2
  | actClickGoogle
  | observeSearch
  | actFillSearch
  | close
  | agentInit
  | agentGoto
  | agentExecute
  | agentClose
  deriving DecidableEq

/-- Sequencing of two already-evaluated script fragments: if the first
raises, its events stand and the second never runs; otherwise the events
concatenate and the second decides the outcome. -/
def seqE (a : List Event × Option PyErr) (k : List Event × Option PyErr) :
    List Event × Option PyErr :=
  match a with
  | (ev, some e) => (ev, some e)
  | (ev, none) => (ev ++ k.1, k.2)

/-- One collaborator call: the attempt events (any preceding pure
statements plus the call itself) are always emitted; if the oracle says
the call raises, the run stops there, otherwise the success events (the
statements up to the next call) follow. -/
def callE (fails : Site → Option PyErr) (s : Site)
    (attempt success : List Event) : List Event × Option PyErr :=
  match fails s with
  | some e => (attempt, some e)
  | none => (attempt ++ success, none)

/-- Everything the outside world decides during a run of example.py:
which collaborator calls raise, whether stagehand.llm is not None, what
page.extract returns, the idToUrl mapping of the accessibility tree, what
ElementAction.model_validate_json would yield for the LLM response, and
the CDP resolution oracles. -/
structure ExampleWorld where
  fails : Site → Option PyErr
  llmAvailable : Bool
  extractResult : ExtractResult
  idToUrl : List (String × String)
  parsedAction : Option ElementAction
  resolveEnv : ResolveEnv

/-- Lines 196-207 of example.py, the local try of the fallback branch: the
act that fills the search bar is guarded by its own try/except, so its
failure is caught, logged as a warning and the run continues. -/
def fillSearchStep (w : ExampleWorld) : List Event × Option PyErr :=
  match w.fails Site.actFillSearch with
  | some _ =>
      ([Event.actCall "fill the search bar with Hello", Event.caughtWarning],
       none)
  | none =>
      ([Event.actCall "fill the search bar with Hello",
        Event.print "Filled search bar using act()"], none)

/-- Lines 153-207 of example.py: the direct-LLM branch when stagehand.llm
is not None, otherwise observe the search bar (unguarded) and fill it via
the locally guarded act. -/
def llmOrFallback (w : ExampleWorld) : List Event × Option PyErr :=
  if w.llmAvailable then
    directLlmBranch w.parsedAction w.resolveEnv
  else
    seqE ([Event.print
             "LLM client not available in BROWSERBASE mode - skipping direct LLM test"],
          none)
      (seqE (callE w.fails Site.observeSearch
              [Event.observeCall "the search bar or search input field"]
              [Event.print "Observed search elements"])
        (fillSearchStep w))

/-- The try-block body of main in example.py (lines 66-210): init,
navigation, accessibility tree, act, observe, extract with its parse
block, the raw XPath click, the new Google page, and the LLM branch,
ending with the final summary print. -/
def exampleBody (w : ExampleWorld) : List Event × Option PyErr :=
  seqE (callE w.fails Site.init [Event.initSession]
         [Event.print "Successfully initialized Stagehand async client",
          Event.print "Environment", Event.print "LLM Client Available"])
  (seqE (callE w.fails Site.gotoAigrant [Event.goto "https://www.aigrant.com"]
          [Event.print "Navigated to AIgrant", Event.sleepSeconds 2])
  (seqE (callE w.fails Site.getTree1 [Event.getTree]
          [Event.print "Extracted accessibility tree",
           Event.print "ID to URL mapping:", Event.print "IFrames:"])
  (seqE (callE w.fails Site.actClickGetStarted
          [Event.actCall "click the button with text Get Started"]
          [Event.print "Clicked Get Started button"])
  (seqE (callE w.fails Site.observeGetStarted
          [Event.observeCall "the button with text Get Started"]
          [Event.print "Observed Get Started button"])
  (seqE (callE w.fails Site.extract
          [Event.extractCall
             "Extract the names and URLs of up to 5 companies mentioned on this page"]
          (extractAndParse w.idToUrl w.extractResult))
  (seqE (callE w.fails Site.xpathClick
          [Event.locatorClick "/html/body/div/ul[2]/li[2]/a"] [])
  (seqE (callE w.fails Site.waitLoad [Event.waitForLoadState]
          [Event.print "Clicked element using XPath"])
  (seqE (callE w.fails Site.newPage
          [Event.print "Creating a new page...", Event.newPage] [])
  (seqE (callE w.fails Site.gotoGoogle [Event.goto "https://www.google.com"]
          [Event.print "Opened Google in a new page"])
  (seqE (callE w.fails Site.getTree2 [Event.getTree]
          [Event.print "Extracted accessibility tree for new page"])
  (seqE (callE w.fails Site.actClickGoogle
          [Event.actCall "click the button with text Get Started"] [])
  (seqE (llmOrFallback w)
        ([Event.print "All tests completed successfully!"], none)))))))))))))

/-- The environment-variable reads of example.py, in evaluation order:
the StagehandConfig keyword arguments (lines 51, 52, 54) and the
server_url argument of the Stagehand constructor (line 62).  They all
happen before the try block, hence before init. -/
def exampleEnvReads : List Event :=
  [Event.getenv "BROWSERBASE_API_KEY", Event.getenv "BROWSERBASE_PROJECT_ID",
   Event.getenv "MODEL_API_KEY", Event.getenv "STAGEHAND_SERVER_URL"]

/-- main of example.py (lines 47-222): the configuration reads the
environment variables, then the try body runs; an exception in the body is
printed with a traceback and re-raised by the except clause; the finally
clause always sleeps five seconds and closes the client (an exception
raised by close itself replaces the in-flight one, as in Python). -/
def exampleMain (w : ExampleWorld) : List Event × Option PyErr :=
  let body := exampleBody w
  let afterExcept : List Event × Option PyErr :=
    match body.2 with
    | none => (body.1, none)
    | some e => (body.1 ++ [Event.errorLog, Event.tracebackPrint], some e)
  let fin : List Event × Option PyErr :=
    match w.fails Site.close with
    | some e2 => ([Event.sleepSeconds 5, Event.closeSession], some e2)
    | none =>
        ([Event.sleepSeconds 5, Event.closeSession,
          Event.print "Stagehand async client closed"], none)
  (exampleEnvReads ++ afterExcept.1 ++ fin.1,
   match fin.2 with
   | some e2 => some e2
   | none => afterExcept.2)

/-- Everything the outside world decides during a run of agent_example.py:
which collaborator calls raise. -/
structure AgentWorld where
  fails : Site → Option PyErr

/-- main of agent_example.py (lines 40-99): configuration (environment
reads at lines 44, 45, 53, 59), init, the agent configuration re-reading
MODEL_API_KEY at line 75 after init, navigation, the agent execution with
max_steps 20, and a plain final close.  No statement is guarded: the whole
body is straight-line code without try/except/finally, so the first
failing call aborts the run and skips everything after it, including
close. -/
def agentExampleMain (w : AgentWorld) : List Event × Option PyErr :=
  seqE ([Event.getenv "BROWSERBASE_API_KEY",
         Event.getenv "BROWSERBASE_PROJECT_ID",
         Event.getenv "MODEL_API_KEY", Event.getenv "STAGEHAND_SERVER_URL",
         Event.print "Initializing Stagehand..."], none)
  (seqE (callE w.fails Site.agentInit [Event.initSession]
          [Event.print "Created new session",
           Event.print "View your live browser"])
  (seqE ([Event.getenv "MODEL_API_KEY",
          Event.print "Navigating to Google"], none)
  (seqE (callE w.fails Site.agentGoto [Event.goto "https://google.com/"]
          [Event.print "Navigated to Google",
           Event.print "Using Agent to perform a task: playing a game of 2048"])
  (seqE (callE w.fails Site.agentExecute [Event.agentExecuteCall 20]
          [Event.print "Agent execution result:", Event.printAgentResult,
           Event.print "Closing session..."])
  (callE w.fails Site.agentClose [Event.closeSession]
     [Event.print "Session closed successfully!",
      Event.print "End of Example"])))))

/-! Theorems for the claims. -/

/-- Concrete resolution environment for claim C1: every node resolves to
an object handle with objectId oid1 and every object converts to the
non-empty XPath /x. -/
def envC1 : ResolveEnv :=
  { resolveNode := fun _ => ObjHandle.objId "oid1",
    xpathOf := fun _ => some "/x" }

/-- Concrete ElementAction for the C1 counterexample: a well-formed action
whose arguments list is empty. -/
def actC1 : ElementAction := { action := "fill", id := 7, arguments := [] }

/-- Concrete ElementAction for the C1 witness: same element with one
argument. -/
def actC1b : ElementAction :=
  { action := "fill", id := 7, arguments := ["Hello"] }

/-- Claim C1, counterexample: with the LLM-returned action actC1 (empty
arguments list) the resolution obtains the non-empty XPath /x, the click
on that locator happens, but no fill is performed: evaluating
action.arguments at index 0 raises IndexError instead, so the claim that
click and fill are both performed whenever a non-empty XPath is obtained
is false. -/
theorem c1_counterexample :
    elementResolutionWorkflow envC1 actC1 =
      ([Event.cdpSend "DOM.resolveNode" 7, Event.printObj (ObjHandle.objId "oid1"),
        Event.getCdpClient, Event.xpathLookup "oid1",
        Event.print "Retrieved XPath: /x", Event.locatorClick "/x"],
       some PyErr.indexError) := by
  decide

/-- Claim C1 (amended): after the LLM returns an ElementAction, the script
calls DOM.resolveNode with backendNodeId equal to action.id; when the
returned handle carries an objectId it is converted to an XPath via the
collaborator utility, and whenever a non-empty XPath is obtained and the
arguments list is non-empty, the script performs a click and then a fill
with the first argument on the locator for exactly that XPath, completing
without exception. -/
theorem c1_amended (env : ResolveEnv) (action : ElementAction)
    (oid xp a : String) (rest : List String)
    (h1 : env.resolveNode action.id = ObjHandle.objId oid)
    (h2 : env.xpathOf oid = some xp) (h3 : xp ≠ "")
    (h4 : action.arguments = a :: rest) :
    elementResolutionWorkflow env action =
      ([Event.cdpSend "DOM.resolveNode" action.id,
        Event.printObj (ObjHandle.objId oid), Event.getCdpClient,
        Event.xpathLookup oid, Event.print ("Retrieved XPath: " ++ xp),
        Event.locatorClick xp, Event.locatorFill xp a,
        Event.print "Filled search bar with Hello"], none) := by
  simp [elementResolutionWorkflow, h1, h2, h4, reprOptStr, h3]

/-- Witness for the amended claim C1 at a concrete input. -/
theorem c1_amended_witness :
    elementResolutionWorkflow envC1 actC1b =
      ([Event.cdpSend "DOM.resolveNode" 7, Event.printObj (ObjHandle.objId "oid1"),
        Event.getCdpClient, Event.xpathLookup "oid1",
        Event.print "Retrieved XPath: /x", Event.locatorClick "/x",
        Event.locatorFill "/x" "Hello",
        Event.print "Filled search bar with Hello"], none) :=
  c1_amended envC1 actC1b "oid1" "/x" "Hello" [] rfl rfl (by decide) rfl

/-- Concrete resolution environment for claim C2: DOM.resolveNode returns
a response with no object entry. -/
def envC2 : ResolveEnv :=
  { resolveNode := fun _ => ObjHandle.noObj, xpathOf := fun _ => none }

/-- Concrete well-formed ElementAction for the C2 counterexample. -/
def actC2 : ElementAction :=
  { action := "fill", id := 9, arguments := ["Hello"] }

/-- Claim C2, counterexample: with a well-formed ElementAction, when the
resolution step yields an empty object handle the workflow does not print
the no-xpath notice; it raises a TypeError (subscripting None for
objectId), so the claim that an empty object handle leads to the printed
soft failure without an exception is false. -/
theorem c2_counterexample :
    elementResolutionWorkflow envC2 actC2 =
      ([Event.cdpSend "DOM.resolveNode" 9, Event.printObj ObjHandle.noObj,
        Event.getCdpClient],
       some (PyErr.typeError "NoneType object is not subscriptable")) ∧
    Event.print "No xpath found" ∉ (elementResolutionWorkflow envC2 actC2).1 := by
  constructor
  · decide
  · decide

/-- Claim C2 (amended): for every well-formed ElementAction, when the
object handle resolves with an objectId but the XPath conversion yields no
truthy XPath (None or the empty string), the workflow prints the
no-xpath-found notice and raises no exception; when the resolution yields
an empty or id-less object handle, the workflow instead raises (TypeError,
respectively KeyError) without printing the notice. -/
theorem c2_amended (env : ResolveEnv) (action : ElementAction) (oid : String) :
    (env.resolveNode action.id = ObjHandle.objId oid →
      optStrTruthy (env.xpathOf oid) = false →
      (elementResolutionWorkflow env action).2 = none ∧
      ∃ pre, (elementResolutionWorkflow env action).1 =
        pre ++ [Event.print "No xpath found"]) ∧
    (env.resolveNode action.id = ObjHandle.noObj →
      elementResolutionWorkflow env action =
        ([Event.cdpSend "DOM.resolveNode" action.id,
          Event.printObj ObjHandle.noObj, Event.getCdpClient],
         some (PyErr.typeError "NoneType object is not subscriptable"))) ∧
    (env.resolveNode action.id = ObjHandle.objMissingId →
      elementResolutionWorkflow env action =
        ([Event.cdpSend "DOM.resolveNode" action.id,
          Event.printObj ObjHandle.objMissingId, Event.getCdpClient],
         some (PyErr.keyError "objectId"))) := by
  refine ⟨?_, ?_, ?_⟩
  · intro h1 h2
    cases hx : env.xpathOf oid with
    | none =>
        refine ⟨?_, ?_⟩
        · simp [elementResolutionWorkflow, h1, hx]
        · refine ⟨[Event.cdpSend "DOM.resolveNode" action.id,
              Event.printObj (ObjHandle.objId oid), Event.getCdpClient,
              Event.xpathLookup oid, Event.print "Retrieved XPath: None"], ?_⟩
          simp [elementResolutionWorkflow, h1, hx, reprOptStr]
    | some s =>
        have hs : s = "" := by
          have := h2
          rw [hx] at this
          simpa [optStrTruthy] using this
        subst hs
        refine ⟨?_, ?_⟩
        · simp [elementResolutionWorkflow, h1, hx]
        · refine ⟨[Event.cdpSend "DOM.resolveNode" action.id,
              Event.printObj (ObjHandle.objId oid), Event.getCdpClient,
              Event.xpathLookup oid, Event.print "Retrieved XPath: "], ?_⟩
          simp [elementResolutionWorkflow, h1, hx, reprOptStr]
  · intro h1
    simp [elementResolutionWorkflow, h1]
  · intro h1
    simp [elementResolutionWorkflow, h1]

/-- Witness for the amended claim C2 at a concrete input: an objectId that
converts to no XPath leads to the printed notice and no exception. -/
theorem c2_amended_witness :
    (elementResolutionWorkflow
        { resolveNode := fun _ => ObjHandle.objId "oid2",
          xpathOf := fun _ => none }
        { action := "fill", id := 3, arguments := ["Hello"] }).2 = none :=
  (c2_amended
      { resolveNode := fun _ => ObjHandle.objId "oid2",
        xpathOf := fun _ => none }
      { action := "fill", id := 3, arguments := ["Hello"] } "oid2").1
    rfl rfl |>.1

/-- Claim C8: model_name is unbound at the create_response call of
example.py (the identically named StagehandConfig keyword argument binds
nothing in main), so every execution reaching the direct-LLM branch
raises NameError while evaluating the call arguments, before the LLM call
is issued and before any element classification is obtained. -/
theorem c8 :
    nameBoundInExampleMain "model_name" = false ∧
    (∀ (parsed : Option ElementAction) (env : ResolveEnv),
      directLlmBranch parsed env =
        ([Event.print "LLM client available - using direct LLM call"],
         some (PyErr.nameError "model_name"))) ∧
    (∀ (parsed : Option ElementAction) (env : ResolveEnv),
      Event.llmCreateResponse ∉ (directLlmBranch parsed env).1) := by
  have h : nameBoundInExampleMain "model_name" = false := by decide
  refine ⟨h, ?_, ?_⟩
  · intro parsed env
    simp [directLlmBranch, h]
  · intro parsed env
    simp [directLlmBranch, h]

/-- Concrete resolution environment for claim C10. -/
def envC10 : ResolveEnv :=
  { resolveNode := fun _ => ObjHandle.objId "oid10",
    xpathOf := fun _ => some "/y" }

/-- Concrete ElementAction with empty arguments for the C10 witness. -/
def actC10 : ElementAction := { action := "fill", id := 11, arguments := [] }

/-- Claim C10: when the direct-LLM code obtains a non-empty XPath, the
fill step evaluates action.arguments at index 0 without an emptiness
check: with an empty arguments list the workflow performs the click and
then raises IndexError, and with a non-empty arguments list the fill
completes and no exception is raised. -/
theorem c10 (env : ResolveEnv) (action : ElementAction) (oid xp : String)
    (h1 : env.resolveNode action.id = ObjHandle.objId oid)
    (h2 : env.xpathOf oid = some xp) (h3 : xp ≠ "") :
    (action.arguments = [] →
      elementResolutionWorkflow env action =
        ([Event.cdpSend "DOM.resolveNode" action.id,
          Event.printObj (ObjHandle.objId oid), Event.getCdpClient,
          Event.xpathLookup oid, Event.print ("Retrieved XPath: " ++ xp),
          Event.locatorClick xp], some PyErr.indexError)) ∧
    (∀ (a : String) (rest : List String), action.arguments = a :: rest →
      (elementResolutionWorkflow env action).2 = none ∧
      Event.locatorFill xp a ∈ (elementResolutionWorkflow env action).1) := by
  constructor
  · intro h4
    simp [elementResolutionWorkflow, h1, h2, h4, reprOptStr, h3]
  · intro a rest h4
    constructor
    · simp [elementResolutionWorkflow, h1, h2, h4, reprOptStr, h3]
    · simp [elementResolutionWorkflow, h1, h2, h4, reprOptStr, h3]

/-- Witness for claim C10 at a concrete input: empty arguments lead to the
IndexError after the click. -/
theorem c10_witness :
    elementResolutionWorkflow envC10 actC10 =
      ([Event.cdpSend "DOM.resolveNode" 11,
        Event.printObj (ObjHandle.objId "oid10"), Event.getCdpClient,
        Event.xpathLookup "oid10", Event.print "Retrieved XPath: /y",
        Event.locatorClick "/y"], some PyErr.indexError) :=
  (c10 envC10 actC10 "oid10" "/y" rfl rfl (by decide)).1 rfl

/-- A company accepted by pydantic validation always carries a pydantic
Url object (never a plain str) as its url, and that URL is syntactically
valid. -/
theorem validateCompany_url {v : PyVal} {c : Company}
    (h : validateCompany v = Except.ok c) :
    ∃ u, c.url = PyVal.httpUrl u ∧ validHttpUrl u = true := by
  unfold validateCompany at h
  split at h
  · split at h
    · split_ifs at h with hvalid
      injection h with h2
      subst h2
      exact ⟨_, rfl, hvalid⟩
    · split_ifs at h with hvalid
      injection h with h2
      subst h2
      exact ⟨_, rfl, hvalid⟩
    · exact absurd h (by simp)
  · exact absurd h (by simp)

/-- Every company in a validated companies list carries a syntactically
valid pydantic Url object. -/
theorem validateCompanyList_urls :
    ∀ (items : List PyVal) (cs : List Company),
      validateCompanyList items = Except.ok cs →
      ∀ c ∈ cs, ∃ u, c.url = PyVal.httpUrl u ∧ validHttpUrl u = true := by
  intro items
  induction items with
  | nil =>
      intro cs h c hc
      unfold validateCompanyList at h
      injection h with h2
      subst h2
      simp at hc
  | cons v rest ih =>
      intro cs h c hc
      unfold validateCompanyList at h
      split at h
      · rename_i c1 cs1 hv hrest
        injection h with h2
        subst h2
        rcases List.mem_cons.mp hc with hc1 | hc2
        · subst hc1
          exact validateCompany_url hv
        · exact ih cs1 hrest c hc2
      · exact absurd h (by simp)
      · exact absurd h (by simp)

/-- Every company of a raw value accepted by Companies.model_validate
carries a syntactically valid pydantic Url object as its url. -/
theorem model_validate_urls {v : PyVal} {cd : Companies}
    (h : Companies.model_validate v = Except.ok cd) :
    ∀ c ∈ cd.companies, ∃ u, c.url = PyVal.httpUrl u ∧ validHttpUrl u = true := by
  unfold Companies.model_validate at h
  split at h
  · rename_i fs
    split at h
    · rename_i items hitems
      split at h
      · rename_i cs hcs
        injection h with h2
        subst h2
        exact validateCompanyList_urls items cs hcs
      · exact absurd h (by simp)
    · exact absurd h (by simp)
  · exact absurd h (by simp)

/-- The URL-resolution loop is the identity (and prints nothing) on any
companies list whose url attributes are pydantic Url objects. -/
theorem resolveUrls_id (idToUrl : List (String × String))
    (cs : List Company) (h : ∀ c ∈ cs, ∃ u, c.url = PyVal.httpUrl u) :
    resolveUrls idToUrl cs = (cs, []) := by
  induction cs with
  | nil => rfl
  | cons c rest ih =>
      obtain ⟨u, hu⟩ := h c (List.mem_cons_self c rest)
      have hrest := ih (fun x hx => h x (List.mem_cons_of_mem c hx))
      unfold resolveUrls
      rw [hrest, hu]

/-- Claim C3: for every value returned by extract, the parse block either
normalizes it into a validated Companies object (running the URL loop on
it), or catches the validation failure, prints the failure notice and the
raw result, and leaves companies_data unset; no exception escapes the
block. -/
theorem c3 (idToUrl : List (String × String)) (r : ExtractResult) :
    (∃ c, companiesOf r = Except.ok c ∧
      (parseExtractBlock idToUrl r).1 =
        some { companies := (resolveUrls idToUrl c.companies).1 }) ∨
    ((parseExtractBlock idToUrl r).1 = none ∧
     (parseExtractBlock idToUrl r).2 =
       [Event.print "Failed to parse extract result", Event.printExtractResult] ∧
     ∃ e, companiesOf r = Except.error e) := by
  cases h : companiesOf r with
  | ok c =>
      left
      exact ⟨c, rfl, by simp [parseExtractBlock, h]⟩
  | error e =>
      right
      refine ⟨?_, ?_, e, rfl⟩ <;> simp [parseExtractBlock, h]

/-- Raw extraction value for the C5 counterexample: six companies, one of
them with an empty name, all with syntactically valid URLs. -/
def rawSixC5 : PyVal :=
  PyVal.dict [("companies", PyVal.list
    [PyVal.dict [("name", PyVal.str "Alpha"), ("url", PyVal.str "https://a.example")],
     PyVal.dict [("name", PyVal.str ""), ("url", PyVal.str "https://b.example")],
     PyVal.dict [("name", PyVal.str "Gamma"), ("url", PyVal.str "https://c.example")],
     PyVal.dict [("name", PyVal.str "Delta"), ("url", PyVal.str "https://d.example")],
     PyVal.dict [("name", PyVal.str "Epsilon"), ("url", PyVal.str "https://e.example")],
     PyVal.dict [("name", PyVal.str "Zeta"), ("url", PyVal.str "https://f.example")]])]

/-- The Companies value that rawSixC5 validates into. -/
def companiesSixC5 : Companies :=
  { companies :=
      [{ name := "Alpha", url := PyVal.httpUrl "https://a.example" },
       { name := "", url := PyVal.httpUrl "https://b.example" },
       { name := "Gamma", url := PyVal.httpUrl "https://c.example" },
       { name := "Delta", url := PyVal.httpUrl "https://d.example" },
       { name := "Epsilon", url := PyVal.httpUrl "https://e.example" },
       { name := "Zeta", url := PyVal.httpUrl "https://f.example" }]}

/-- Claim C5, counterexample: the Companies schema accepts an extraction
result with six entries, one of which has an empty name, because the
maximum-of-five bound and the non-emptiness of names live only in field
descriptions that pydantic does not enforce; so the claim that every
accepted result has between 0 and 5 entries with non-empty names is
false. -/
theorem c5_counterexample :
    Companies.model_validate rawSixC5 = Except.ok companiesSixC5 ∧
    companiesSixC5.companies.length = 6 ∧
    companiesSixC5.companies.map Company.name =
      ["Alpha", "", "Gamma", "Delta", "Epsilon", "Zeta"] :=
  ⟨rfl, rfl, rfl⟩

/-- Claim C5 (amended): every extraction result accepted under the
Companies schema has, for each entry, a url that is a pydantic Url object
with syntactically valid HTTP(S) shape; the schema enforces no bound on
the number of entries and no non-emptiness of names, since those
constraints appear only in field descriptions. -/
theorem c5_amended (v : PyVal) (cd : Companies)
    (h : Companies.model_validate v = Except.ok cd) :
    ∀ c ∈ cd.companies, ∃ u, c.url = PyVal.httpUrl u ∧ validHttpUrl u = true :=
  model_validate_urls h

/-- Raw extraction value for the C5 witness. -/
def rawOneC5 : PyVal :=
  PyVal.dict [("companies", PyVal.list
    [PyVal.dict [("name", PyVal.str "Solo"), ("url", PyVal.str "https://solo.example")]])]

/-- The Companies value that rawOneC5 validates into. -/
def companiesOneC5 : Companies :=
  { companies := [{ name := "Solo", url := PyVal.httpUrl "https://solo.example" }] }

/-- Witness for the amended claim C5 at a concrete accepted input: the
accepted single-company result carries a syntactically valid URL. -/
theorem c5_amended_witness : validHttpUrl "https://solo.example" = true := by
  obtain ⟨u, hu, hv⟩ :=
    c5_amended rawOneC5 companiesOneC5 rfl
      { name := "Solo", url := PyVal.httpUrl "https://solo.example" }
      (by simp [companiesOneC5])
  injection hu with h2
  subst h2
  exact hv

/-- Raw extraction value for the C9 witness. -/
def rawOneC9 : PyVal :=
  PyVal.dict [("companies", PyVal.list
    [PyVal.dict [("name", PyVal.str "Acme"), ("url", PyVal.str "https://acme.example")]])]

/-- The Companies value that rawOneC9 validates into. -/
def companiesOneC9 : Companies :=
  { companies := [{ name := "Acme", url := PyVal.httpUrl "https://acme.example" }] }

/-- Claim C9: whenever the extract result validates into the Companies
model, every url attribute is a pydantic Url object rather than a str, so
the isinstance-str guard of the URL-resolution loop is never satisfied and
the loop returns every company entry unchanged and prints nothing. -/
theorem c9 (v : PyVal) (cd : Companies) (idToUrl : List (String × String))
    (h : Companies.model_validate v = Except.ok cd) :
    (∀ c ∈ cd.companies, pyIsInstanceStr c.url = false) ∧
    resolveUrls idToUrl cd.companies = (cd.companies, []) := by
  have hurls := model_validate_urls h
  constructor
  · intro c hc
    obtain ⟨u, hu, _⟩ := hurls c hc
    rw [hu]
    rfl
  · exact resolveUrls_id idToUrl cd.companies
      (fun c hc => ⟨(hurls c hc).choose, (hurls c hc).choose_spec.1⟩)

/-- Witness for claim C9 at a concrete validated input: the loop leaves
the validated companies untouched even though the idToUrl mapping could
resolve a digit string. -/
theorem c9_witness :
    resolveUrls [("1", "https://mapped.example")] companiesOneC9.companies =
      (companiesOneC9.companies, []) :=
  (c9 rawOneC9 companiesOneC9 [("1", "https://mapped.example")] rfl).2

/-- Failure oracle raising e at exactly one call site. -/
def onlyFail (s0 : Site) (e : PyErr) : Site → Option PyErr :=
  fun s => if s = s0 then some e else none

/-- Failure oracle where every collaborator call succeeds. -/
def noFail : Site → Option PyErr := fun _ => none

/-- A raw extract result that fails schema validation, used to complete
concrete example worlds. -/
def baseExtract : ExtractResult := ExtractResult.rawValue (PyVal.dict [])

/-- A resolution environment used to complete concrete example worlds. -/
def baseResolveEnv : ResolveEnv :=
  { resolveNode := fun _ => ObjHandle.noObj, xpathOf := fun _ => none }

/-- A concrete example world from a failure oracle and the llm
availability flag. -/
def exWorldWith (f : Site → Option PyErr) (llm : Bool) : ExampleWorld :=
  { fails := f, llmAvailable := llm, extractResult := baseExtract,
    idToUrl := [], parsedAction := none, resolveEnv := baseResolveEnv }

/-- Agent world in which only the navigation call raises. -/
def agentWorldGotoFails : AgentWorld :=
  { fails := onlyFail Site.agentGoto (PyErr.collabError "goto") }

/-- Agent world in which every call succeeds. -/
def agentWorldOk : AgentWorld := { fails := noFail }

/-- Agent world in which exactly one chosen call raises. -/
def agentWorldFailAt (s : Site) (e : PyErr) : AgentWorld :=
  { fails := onlyFail s e }

/-- Whether an event is an environment-variable read. -/
def isGetenvEvent : Event → Bool
  | Event.getenv _ => true
  | _ => false

/-- Sequencing preserves the absence of environment reads. -/
theorem filter_getenv_seqE (a k : List Event × Option PyErr)
    (ha : a.1.filter isGetenvEvent = []) (hk : k.1.filter isGetenvEvent = []) :
    (seqE a k).1.filter isGetenvEvent = [] := by
  rcases a with ⟨ev, err⟩
  cases err with
  | none => simp only [seqE, List.filter_append] at *; rw [ha, hk]; rfl
  | some e => exact ha

/-- A collaborator call preserves the absence of environment reads. -/
theorem filter_getenv_callE (f : Site → Option PyErr) (s : Site)
    (att suc : List Event) (hatt : att.filter isGetenvEvent = [])
    (hsuc : suc.filter isGetenvEvent = []) :
    (callE f s att suc).1.filter isGetenvEvent = [] := by
  unfold callE
  cases f s with
  | none => simp only [List.filter_append]; rw [hatt, hsuc]; rfl
  | some e => exact hatt

/-- The URL-resolution loop emits no environment reads. -/
theorem filter_getenv_resolveUrls (idToUrl : List (String × String))
    (cs : List Company) :
    (resolveUrls idToUrl cs).2.filter isGetenvEvent = [] := by
  induction cs with
  | nil => rfl
  | cons c rest ih =>
      unfold resolveUrls
      cases c.url <;> simp only []
      case str u =>
        by_cases hd : pyIsDigit u
        · simp only [hd, if_true]
          cases lookupStr idToUrl u <;>
            simp [List.filter_cons, isGetenvEvent, ih]
        · simp [hd, ih]
      all_goals simp [ih]

/-- The company print lines emit no environment reads. -/
theorem filter_getenv_companyPrintLines (i : Nat) (cs : List Company) :
    (companyPrintLines i cs).filter isGetenvEvent = [] := by
  induction cs generalizing i with
  | nil => rfl
  | cons c rest ih => simp [companyPrintLines, isGetenvEvent, ih]

/-- The company listing emits no environment reads. -/
theorem filter_getenv_printCompanies (cd : Option Companies) :
    (printCompanies cd).filter isGetenvEvent = [] := by
  cases cd with
  | none => rfl
  | some c => exact filter_getenv_companyPrintLines 1 c.companies

/-- The extract-and-parse chunk emits no environment reads. -/
theorem filter_getenv_extractAndParse (idToUrl : List (String × String))
    (r : ExtractResult) :
    (extractAndParse idToUrl r).filter isGetenvEvent = [] := by
  unfold extractAndParse parseExtractBlock
  cases h : companiesOf r with
  | ok c =>
      simp [List.filter_append, isGetenvEvent,
            filter_getenv_resolveUrls idToUrl c.companies,
            filter_getenv_companyPrintLines, printCompanies]
  | error e =>
      simp [List.filter_append, isGetenvEvent, printCompanies]

/-- The element-resolution workflow emits no environment reads. -/
theorem filter_getenv_resolution (env : ResolveEnv) (action : ElementAction) :
    (elementResolutionWorkflow env action).1.filter isGetenvEvent = [] := by
  unfold elementResolutionWorkflow
  cases h : env.resolveNode action.id with
  | noObj => simp [h, isGetenvEvent]
  | objMissingId => simp [h, isGetenvEvent]
  | objId oid =>
      cases hx : env.xpathOf oid with
      | none => simp [h, hx, isGetenvEvent]
      | some s =>
          by_cases hs : s = ""
          · simp [h, hx, hs, isGetenvEvent]
          · cases ha : action.arguments <;> simp [h, hx, hs, ha, isGetenvEvent]

/-- The direct-LLM branch emits no environment reads. -/
theorem filter_getenv_directLlm (parsed : Option ElementAction)
    (env : ResolveEnv) :
    (directLlmBranch parsed env).1.filter isGetenvEvent = [] := by
  have h : nameBoundInExampleMain "model_name" = false := by decide
  simp [directLlmBranch, h, isGetenvEvent]

/-- The LLM-or-fallback branch emits no environment reads. -/
theorem filter_getenv_llmOrFallback (w : ExampleWorld) :
    (llmOrFallback w).1.filter isGetenvEvent = [] := by
  unfold llmOrFallback
  cases w.llmAvailable with
  | true => simpa using filter_getenv_directLlm w.parsedAction w.resolveEnv
  | false =>
      simp only [Bool.false_eq_true, if_false]
      apply filter_getenv_seqE
      · simp [isGetenvEvent]
      · apply filter_getenv_seqE
        · apply filter_getenv_callE <;> simp [isGetenvEvent]
        · unfold fillSearchStep
          cases w.fails Site.actFillSearch <;> simp [isGetenvEvent]

/-- The whole try-block body of example.py emits no environment reads:
all four getenv calls happen in the configuration code before the try
block. -/
theorem filter_getenv_exampleBody (w : ExampleWorld) :
    (exampleBody w).1.filter isGetenvEvent = [] := by
  unfold exampleBody
  apply filter_getenv_seqE
  · apply filter_getenv_callE <;> simp [isGetenvEvent]
  apply filter_getenv_seqE
  · apply filter_getenv_callE <;> simp [isGetenvEvent]
  apply filter_getenv_seqE
  · apply filter_getenv_callE <;> simp [isGetenvEvent]
  apply filter_getenv_seqE
  · apply filter_getenv_callE <;> simp [isGetenvEvent]
  apply filter_getenv_seqE
  · apply filter_getenv_callE <;> simp [isGetenvEvent]
  apply filter_getenv_seqE
  · apply filter_getenv_callE
    · simp [isGetenvEvent]
    · exact filter_getenv_extractAndParse w.idToUrl w.extractResult
  apply filter_getenv_seqE
  · apply filter_getenv_callE <;> simp [isGetenvEvent]
  apply filter_getenv_seqE
  · apply filter_getenv_callE <;> simp [isGetenvEvent]
  apply filter_getenv_seqE
  · apply filter_getenv_callE <;> simp [isGetenvEvent]
  apply filter_getenv_seqE
  · apply filter_getenv_callE <;> simp [isGetenvEvent]
  apply filter_getenv_seqE
  · apply filter_getenv_callE <;> simp [isGetenvEvent]
  apply filter_getenv_seqE
  · apply filter_getenv_callE <;> simp [isGetenvEvent]
  apply filter_getenv_seqE
  · exact filter_getenv_llmOrFallback w
  · simp [isGetenvEvent]

/-- Claim C4, counterexample: in agent_example.py a failing navigation
aborts the run before close is ever attempted, and no delay precedes any
teardown, so the claim that every run of each script attempts close inside
a scoped-cleanup block with a fixed preceding delay is false. -/
theorem c4_counterexample :
    agentExampleMain agentWorldGotoFails =
      ([Event.getenv "BROWSERBASE_API_KEY", Event.getenv "BROWSERBASE_PROJECT_ID",
        Event.getenv "MODEL_API_KEY", Event.getenv "STAGEHAND_SERVER_URL",
        Event.print "Initializing Stagehand...", Event.initSession,
        Event.print "Created new session", Event.print "View your live browser",
        Event.getenv "MODEL_API_KEY", Event.print "Navigating to Google",
        Event.goto "https://google.com/"], some (PyErr.collabError "goto")) ∧
    Event.closeSession ∉ (agentExampleMain agentWorldGotoFails).1 := by
  constructor
  · decide
  · decide

/-- Claim C4 (amended): in example.py, teardown is attempted inside the
finally clause on every run, success or failure, with the fixed
five-second sleep immediately preceding close; in agent_example.py there
is no cleanup block: close is only reached on all-success runs, is skipped
whenever an earlier call fails, and no delay precedes it. -/
theorem c4_amended :
    (∀ w : ExampleWorld, ∃ pre post, (exampleMain w).1 =
        pre ++ [Event.sleepSeconds 5, Event.closeSession] ++ post) ∧
    (∀ w : AgentWorld, (agentExampleMain w).2 = none →
        Event.closeSession ∈ (agentExampleMain w).1) ∧
    (∀ (w : AgentWorld) (n : Nat),
        Event.sleepSeconds n ∉ (agentExampleMain w).1) := by
  refine ⟨?_, ?_, ?_⟩
  · intro w
    cases hb : (exampleBody w).2 with
    | none =>
        cases hc : w.fails Site.close with
        | none =>
            exact ⟨exampleEnvReads ++ (exampleBody w).1,
                   [Event.print "Stagehand async client closed"],
                   by simp [exampleMain, hb, hc, List.append_assoc]⟩
        | some e2 =>
            exact ⟨exampleEnvReads ++ (exampleBody w).1, [],
                   by simp [exampleMain, hb, hc, List.append_assoc]⟩
    | some e =>
        cases hc : w.fails Site.close with
        | none =>
            exact ⟨exampleEnvReads ++ ((exampleBody w).1 ++
                     [Event.errorLog, Event.tracebackPrint]),
                   [Event.print "Stagehand async client closed"],
                   by simp [exampleMain, hb, hc, List.append_assoc]⟩
        | some e2 =>
            exact ⟨exampleEnvReads ++ ((exampleBody w).1 ++
                     [Event.errorLog, Event.tracebackPrint]), [],
                   by simp [exampleMain, hb, hc, List.append_assoc]⟩
  · intro w h
    cases h1 : w.fails Site.agentInit with
    | some e => simp [agentExampleMain, seqE, callE, h1] at h
    | none =>
    cases h2 : w.fails Site.agentGoto with
    | some e => simp [agentExampleMain, seqE, callE, h1, h2] at h
    | none =>
    cases h3 : w.fails Site.agentExecute with
    | some e => simp [agentExampleMain, seqE, callE, h1, h2, h3] at h
    | none =>
    cases h4 : w.fails Site.agentClose <;>
      simp [agentExampleMain, seqE, callE, h1, h2, h3, h4]
  · intro w n
    cases h1 : w.fails Site.agentInit with
    | some e => simp [agentExampleMain, seqE, callE, h1]
    | none =>
    cases h2 : w.fails Site.agentGoto with
    | some e => simp [agentExampleMain, seqE, callE, h1, h2]
    | none =>
    cases h3 : w.fails Site.agentExecute with
    | some e => simp [agentExampleMain, seqE, callE, h1, h2, h3]
    | none =>
    cases h4 : w.fails Site.agentClose <;>
      simp [agentExampleMain, seqE, callE, h1, h2, h3, h4]

/-- Witness for the amended claim C4: on the all-success agent run, close
is reached. -/
theorem c4_amended_witness :
    Event.closeSession ∈ (agentExampleMain agentWorldOk).1 :=
  c4_amended.2.1 agentWorldOk (by decide)

/-- Example world in which only the guarded fill-the-search-bar act fails,
with the fallback (non-LLM) branch taken. -/
def exWorldFillFails (e : PyErr) : ExampleWorld :=
  exWorldWith (onlyFail Site.actFillSearch e) false

/-- Example world in which only the first act (click Get Started) fails. -/
def exWorldClickFails (e : PyErr) : ExampleWorld :=
  exWorldWith (onlyFail Site.actClickGetStarted e) false

/-- Claim C6: error propagation differs between the scripts.  In
example.py the fill-the-search-bar act failure is caught locally (the run
completes, logging a warning), while the first act failure propagates; any
body failure is logged by the catch-all and re-raised after the finally
clause attempts close.  agent_example.py guards nothing: its runs never
contain a catch event, and a failure of init, navigation or the agent
execution propagates uncaught as the run outcome. -/
theorem c6 :
    ((exampleMain (exWorldFillFails (PyErr.collabError "fill"))).2 = none ∧
      Event.caughtWarning ∈
        (exampleMain (exWorldFillFails (PyErr.collabError "fill"))).1) ∧
    (∀ e : PyErr, (exampleMain (exWorldClickFails e)).2 = some e) ∧
    (∀ (w : ExampleWorld) (e : PyErr), (exampleBody w).2 = some e →
      w.fails Site.close = none →
      (exampleMain w).2 = some e ∧ Event.errorLog ∈ (exampleMain w).1 ∧
      Event.closeSession ∈ (exampleMain w).1) ∧
    (∀ w : AgentWorld, Event.errorLog ∉ (agentExampleMain w).1 ∧
      Event.caughtWarning ∉ (agentExampleMain w).1) ∧
    (∀ e : PyErr,
      (agentExampleMain (agentWorldFailAt Site.agentInit e)).2 = some e) ∧
    (∀ e : PyErr,
      (agentExampleMain (agentWorldFailAt Site.agentGoto e)).2 = some e) ∧
    (∀ e : PyErr,
      (agentExampleMain (agentWorldFailAt Site.agentExecute e)).2 = some e) := by
  refine ⟨?_, ?_, ?_, ?_, ?_, ?_, ?_⟩
  · constructor
    · rfl
    · decide
  · intro e
    rfl
  · intro w e hb hc
    refine ⟨?_, ?_, ?_⟩ <;> simp [exampleMain, hb, hc]
  · intro w
    constructor
    · cases h1 : w.fails Site.agentInit with
      | some e => simp [agentExampleMain, seqE, callE, h1]
      | none =>
      cases h2 : w.fails Site.agentGoto with
      | some e => simp [agentExampleMain, seqE, callE, h1, h2]
      | none =>
      cases h3 : w.fails Site.agentExecute with
      | some e => simp [agentExampleMain, seqE, callE, h1, h2, h3]
      | none =>
      cases h4 : w.fails Site.agentClose <;>
        simp [agentExampleMain, seqE, callE, h1, h2, h3, h4]
    · cases h1 : w.fails Site.agentInit with
      | some e => simp [agentExampleMain, seqE, callE, h1]
      | none =>
      cases h2 : w.fails Site.agentGoto with
      | some e => simp [agentExampleMain, seqE, callE, h1, h2]
      | none =>
      cases h3 : w.fails Site.agentExecute with
      | some e => simp [agentExampleMain, seqE, callE, h1, h2, h3]
      | none =>
      cases h4 : w.fails Site.agentClose <;>
        simp [agentExampleMain, seqE, callE, h1, h2, h3, h4]
  · intro e
    rfl
  · intro e
    rfl
  · intro e
    rfl

/-- Witness for claim C6: a concrete failing run of example.py, with the
body failure re-raised as the outcome after cleanup, the catch-all log,
and the close attempt in the trace. -/
theorem c6_witness :
    (exampleMain (exWorldClickFails (PyErr.collabError "act"))).2 =
        some (PyErr.collabError "act") ∧
    Event.errorLog ∈ (exampleMain (exWorldClickFails (PyErr.collabError "act"))).1 ∧
    Event.closeSession ∈
      (exampleMain (exWorldClickFails (PyErr.collabError "act"))).1 :=
  c6.2.2.1 (exWorldClickFails (PyErr.collabError "act"))
    (PyErr.collabError "act") (by decide) (by decide)

/-- Claim C7, counterexample: on the all-success run of agent_example.py
the model API key is read twice, and the second read happens after the
session is initialized, so the claim that every consumed environment
variable is read exactly once before initialization and never re-read is
false. -/
theorem c7_counterexample :
    (agentExampleMain agentWorldOk).1.count (Event.getenv "MODEL_API_KEY") = 2 ∧
    (agentExampleMain agentWorldOk).1.take 6 =
      [Event.getenv "BROWSERBASE_API_KEY", Event.getenv "BROWSERBASE_PROJECT_ID",
       Event.getenv "MODEL_API_KEY", Event.getenv "STAGEHAND_SERVER_URL",
       Event.print "Initializing Stagehand...", Event.initSession] ∧
    ((agentExampleMain agentWorldOk).1.drop 6).count
      (Event.getenv "MODEL_API_KEY") = 1 := by
  refine ⟨?_, ?_, ?_⟩ <;> decide

/-- Claim C7 (amended): in example.py the four environment variables are
read exactly once each, as the first four events of every run, before the
session is initialized; in agent_example.py the API key, project id and
server URL are likewise read once, but the model API key is read twice,
the second time after session initialization (for the agent
configuration). -/
theorem c7_amended :
    (∀ w : ExampleWorld,
      (exampleMain w).1.filter isGetenvEvent = exampleEnvReads ∧
      (exampleMain w).1.take 4 = exampleEnvReads) ∧
    ((agentExampleMain agentWorldOk).1.count
        (Event.getenv "BROWSERBASE_API_KEY") = 1 ∧
     (agentExampleMain agentWorldOk).1.count
        (Event.getenv "BROWSERBASE_PROJECT_ID") = 1 ∧
     (agentExampleMain agentWorldOk).1.count
        (Event.getenv "STAGEHAND_SERVER_URL") = 1 ∧
     (agentExampleMain agentWorldOk).1.count
        (Event.getenv "MODEL_API_KEY") = 2) := by
  constructor
  · intro w
    have hbody := filter_getenv_exampleBody w
    constructor
    · cases hb : (exampleBody w).2 with
      | none =>
          cases hc : w.fails Site.close <;>
            simp [exampleMain, hb, hc, List.filter_append, hbody,
                  isGetenvEvent, exampleEnvReads]
      | some e =>
          cases hc : w.fails Site.close <;>
            simp [exampleMain, hb, hc, List.filter_append, hbody,
                  isGetenvEvent, exampleEnvReads]
    · cases hb : (exampleBody w).2 with
      | none =>
          cases hc : w.fails Site.close <;>
            simp [exampleMain, hb, hc, exampleEnvReads]
      | some e =>
          cases hc : w.fails Site.close <;>
            simp [exampleMain, hb, hc, exampleEnvReads]
  · refine ⟨?_, ?_, ?_, ?_⟩ <;> decide

end StagehandDemo
